import Mathlib

/-!
Verification development for the `ai-calendar-agent` script.

The script's deterministic core (confidence gate, date parsing, timezone
resolution, duration arithmetic, Gmail message normalization, batch driver)
is embedded shallowly below.  External collaborators (the two LLM calls,
the Google calendar insert) are modelled as function-valued parameters
collected in a `Collab` record: the embedding is parametric in their
behaviour, exactly as the Python code is parametric in what the network
returns.  The ambient host timezone that Python's `datetime.astimezone`
consults for naive datetimes is modelled as a fixed offset `sysOff`
(seconds east of UTC).

Datetimes are modelled in seconds.  A wall-clock reading is the number of
seconds since 0000-03-01T00:00:00 in that wall clock; an instant is the
same count in UTC.  `pytz.timezone("America/New_York")` is modelled by
`nyOffset`, the UTC-instant-to-offset map given by the post-2007 US DST
rule (EDT from 2:00 EST on the second Sunday of March to 2:00 EDT on the
first Sunday of November, offsets -4h and -5h); the script only ever resolves
contemporary dates, for which this agrees with the tz database.
`datetime.fromisoformat` is modelled on the canonical ISO-8601 forms it
accepts: `YYYY-MM-DD`, optionally `THH:MM[:SS]`, optionally an offset
`+HH:MM` or `-HH:MM` (fractional seconds and exotic separators are outside
the behaviour any claim depends on).  URL-safe base64 / UTF-8 decoding of
Gmail payloads is a fixed bijection on well-formed payloads and is
modelled by letting the `data` field carry the decoded text.
-/

namespace CalendarAgent

/-! ## Civil-date arithmetic (Gregorian calendar) -/

def isLeap (y : Nat) : Bool :=
  y % 4 == 0 && (y % 100 != 0 || y % 400 == 0)

def daysInMonth (y m : Nat) : Nat :=
  if m = 2 then (if isLeap y then 29 else 28)
  else if m = 4 ∨ m = 6 ∨ m = 9 ∨ m = 11 then 30
  else 31

/-- Days since 0000-03-01 of a civil date (valid for `1 ≤ y`). -/
def daysFromCivil (y m d : Nat) : Nat :=
  let yy := if m ≤ 2 then y - 1 else y
  let era := yy / 400
  let yoe := yy % 400
  let mp := (m + 9) % 12
  let doy := (153 * mp + 2) / 5 + (d - 1)
  let doe := yoe * 365 + yoe / 4 - yoe / 100 + doy
  era * 146097 + doe

/-- Civil year containing day `z` (days since 0000-03-01). -/
def yearOfDays (z : Nat) : Nat :=
  let era := z / 146097
  let doe := z % 146097
  let yoe := (doe - doe / 1460 + doe / 36524 - doe / 146096) / 365
  let doy := doe - (365 * yoe + yoe / 4 - yoe / 100)
  let mp := (5 * doy + 2) / 153
  let y := yoe + era * 400
  if mp < 10 then y else y + 1

/-- Day of week, Sunday = 0 (day 719468 = 1970-01-01 was a Thursday). -/
def dowOfDays (z : Nat) : Nat := (z + 3) % 7

def firstSundayOnOrAfter (z : Nat) : Nat := z + (7 - dowOfDays z) % 7

def nySecondSundayMarch (y : Nat) : Nat :=
  firstSundayOnOrAfter (daysFromCivil y 3 1) + 7

def nyFirstSundayNov (y : Nat) : Nat :=
  firstSundayOnOrAfter (daysFromCivil y 11 1)

/-- UTC instant at which DST starts in year `y` (2:00 EST = 07:00 UTC). -/
def nyDstStart (y : Nat) : Int :=
  ((nySecondSundayMarch y * 86400 + 25200 : Nat) : Int)

/-- UTC instant at which DST ends in year `y` (2:00 EDT = 06:00 UTC). -/
def nyDstEnd (y : Nat) : Int :=
  ((nyFirstSundayNov y * 86400 + 21600 : Nat) : Int)

/-- Model of `pytz.timezone("America/New_York")`: offset (seconds east of
UTC) in force at a given UTC instant, by the post-2007 US DST rule. -/
def nyOffset (t : Int) : Int :=
  let y := yearOfDays (t.toNat / 86400)
  if nyDstStart y ≤ t ∧ t < nyDstEnd y then -14400 else -18000

/-! ## Model of `datetime.fromisoformat` -/

def splitOnChar (c : Char) : List Char → List (List Char)
  | [] => [[]]
  | x :: xs =>
    if x = c then [] :: splitOnChar c xs
    else
      match splitOnChar c xs with
      | [] => [[x]]
      | g :: gs => (x :: g) :: gs

def digitsToNatAux (acc : Nat) : List Char → Option Nat
  | [] => some acc
  | ch :: cs =>
    if ch.isDigit then digitsToNatAux (acc * 10 + (ch.toNat - 48)) cs
    else none

def digitsToNat (l : List Char) : Option Nat :=
  match l with
  | [] => none
  | _ => digitsToNatAux 0 l

/-- Parse exactly `n` decimal digits. -/
def parseFixedNat (n : Nat) (l : List Char) : Option Nat :=
  if l.length = n then digitsToNat l else none

def parseDate (l : List Char) : Option (Nat × Nat × Nat) :=
  match splitOnChar (Char.ofNat 45) l with
  | [ys, ms, ds] =>
    match parseFixedNat 4 ys, parseFixedNat 2 ms, parseFixedNat 2 ds with
    | some y, some m, some d =>
      if 1 ≤ y ∧ y ≤ 9999 ∧ 1 ≤ m ∧ m ≤ 12 ∧ 1 ≤ d ∧ d ≤ daysInMonth y m
      then some (y, m, d) else none
    | _, _, _ => none
  | _ => none

/-- Seconds within the day of a `HH:MM` or `HH:MM:SS` time. -/
def parseTime (l : List Char) : Option Nat :=
  match splitOnChar (Char.ofNat 58) l with
  | [hs, ms] =>
    match parseFixedNat 2 hs, parseFixedNat 2 ms with
    | some h, some mi =>
      if h ≤ 23 ∧ mi ≤ 59 then some (h * 3600 + mi * 60) else none
    | _, _ => none
  | [hs, ms, ss] =>
    match parseFixedNat 2 hs, parseFixedNat 2 ms, parseFixedNat 2 ss with
    | some h, some mi, some s =>
      if h ≤ 23 ∧ mi ≤ 59 ∧ s ≤ 59 then some (h * 3600 + mi * 60 + s)
      else none
    | _, _, _ => none
  | _ => none

/-- Magnitude in seconds of a `HH:MM` UTC-offset suffix. -/
def parseOffsetMag (l : List Char) : Option Nat :=
  match splitOnChar (Char.ofNat 58) l with
  | [hs, ms] =>
    match parseFixedNat 2 hs, parseFixedNat 2 ms with
    | some h, some mi =>
      if h ≤ 23 ∧ mi ≤ 59 then some (h * 3600 + mi * 60) else none
    | _, _ => none
  | _ => none

def parseTimeAndOffset (l : List Char) : Option (Nat × Option Int) :=
  if l.contains (Char.ofNat 43) then
    match splitOnChar (Char.ofNat 43) l with
    | [t, off] =>
      match parseTime t, parseOffsetMag off with
      | some tv, some ov => some (tv, some ((ov : Nat) : Int))
      | _, _ => none
    | _ => none
  else if l.contains (Char.ofNat 45) then
    match splitOnChar (Char.ofNat 45) l with
    | [t, off] =>
      match parseTime t, parseOffsetMag off with
      | some tv, some ov => some (tv, some (-((ov : Nat) : Int)))
      | _, _ => none
    | _ => none
  else
    match parseTime l with
    | some tv => some (tv, none)
    | none => none

/-- Result of `datetime.fromisoformat`: a wall-clock reading (seconds
since 0000-03-01 in that wall clock), naive or with a fixed UTC offset. -/
inductive ParsedDT where
  | naive (wall : Int)
  | aware (wall : Int) (offset : Int)
deriving DecidableEq

def ParsedDT.wallOf : ParsedDT → Int
  | .naive w => w
  | .aware w _ => w

def ParsedDT.isNaive : ParsedDT → Bool
  | .naive _ => true
  | .aware _ _ => false

/-- Model of `datetime.fromisoformat` on its canonical input forms;
`none` models the `ValueError` Python raises on unparsable input. -/
def fromisoformat (s : String) : Option ParsedDT :=
  match splitOnChar (Char.ofNat 84) s.data with
  | [ds] =>
    match parseDate ds with
    | some (y, m, d) => some (.naive ((daysFromCivil y m d * 86400 : Nat) : Int))
    | none => none
  | [ds, ts] =>
    match parseDate ds, parseTimeAndOffset ts with
    | some (y, m, d), some (tv, off) =>
      let wall : Int := ((daysFromCivil y m d * 86400 + tv : Nat) : Int)
      match off with
      | none => some (.naive wall)
      | some o => some (.aware wall o)
    | _, _ => none
  | _ => none

/-! ## Model of aware datetimes and `astimezone` -/

/-- A timezone-aware datetime: UTC instant plus UTC offset (seconds). -/
structure AwareDT where
  instant : Int
  offset : Int
deriving DecidableEq

/-- Wall-clock reading of an aware datetime. -/
def AwareDT.wall (a : AwareDT) : Int := a.instant + a.offset

/-- UTC instant denoted by a parsed datetime.  Python's `astimezone`
interprets a naive datetime as wall-clock time in the host's local
timezone, modelled as the fixed offset `sysOff`. -/
def instantOfParsed (sysOff : Int) : ParsedDT → Int
  | .naive w => w - sysOff
  | .aware w off => w - off

/-- Model of `dt.astimezone(tz)`: the instant is preserved (with naive
input interpreted via the host offset `sysOff`) and the result carries
the offset `tz` assigns to that instant. -/
def pyAstimezone (tz : Int → Int) (sysOff : Int) (p : ParsedDT) : AwareDT :=
  ⟨instantOfParsed sysOff p, tz (instantOfParsed sysOff p)⟩

/-- Model of `dt + timedelta(...)` on an aware datetime: the wall clock
shifts and the attached offset is kept unchanged. -/
def addSeconds (a : AwareDT) (n : Int) : AwareDT := ⟨a.instant + n, a.offset⟩

/-! ## Data models of the script (pydantic classes) -/

/-- The `Literal["new_event", "other"]` field type. -/
inductive RequestType where
  | new_event
  | other
deriving DecidableEq

/-- `CalendarRequestType`: result schema of the router LLM call.
`confidence_score` is modelled as a rational in place of a Python float;
every threshold the script compares against is exactly representable. -/
structure CalendarRequestType where
  request_type : RequestType
  confidence_score : ℚ
  description : String
deriving DecidableEq

/-- `NewEventDetails`: result schema of the extraction LLM call. -/
structure NewEventDetails where
  name : String
  date : String
  duration_minutes : Option Int
  location : Option String
  description : String
deriving DecidableEq

/-- `CalendarResponse`: final response format. -/
structure CalendarResponse where
  success : Bool
  message : String
  calendar_link : Option String
deriving DecidableEq

/-- One entry of the `attendees` payload list (`{'email': sender}`). -/
structure Attendee where
  email : String
deriving DecidableEq

/-- The event record handed to `addEventToCal` (the fixed
`reminders` block of the insert payload carries no information and is
elided).  `start`/`endtime` are the aware datetimes whose `isoformat`
strings the script serializes into the payload. -/
structure EventPayload where
  summary : String
  location : String
  description : String
  start : AwareDT
  endtime : AwareDT
  attendees : List Attendee
deriving DecidableEq

/-- Errors the script's external calls can raise.  The script installs no
exception handler anywhere, so each of these propagates to the top. -/
inductive AgentError where
  | routeError
  | extractError
  | dateParseError (raw : String)
  | insertError
deriving DecidableEq

instance {ε α : Type} [DecidableEq ε] [DecidableEq α] : DecidableEq (Except ε α)
  | .error x, .error y =>
    if h : x = y then .isTrue (by rw [h])
    else .isFalse (fun hc => h (by injection hc))
  | .error _, .ok _ => .isFalse (fun hc => by injection hc)
  | .ok _, .error _ => .isFalse (fun hc => by injection hc)
  | .ok x, .ok y =>
    if h : x = y then .isTrue (by rw [h])
    else .isFalse (fun hc => h (by injection hc))

/-- External collaborators of the deterministic core: the router LLM call
(`route_calendar_request`), the extractor LLM call inside
`handle_new_event`, the calendar insert (`addEventToCal`), and the host
timezone offset that `astimezone` consults for naive datetimes.  The
reference-date sentence injected into the extractor prompt only shapes
the LLM text and is absorbed into the `extractor` parameter. -/
structure Collab where
  router : String → Except AgentError CalendarRequestType
  extractor : String → Except AgentError NewEventDetails
  insertEvent : EventPayload → Except AgentError Unit
  sysOff : Int

/-! ## The pipeline -/

/-- Model of `handle_new_event`.  The first component records the
`addEventToCal` calls made (in order); the second is the returned
`CalendarResponse`, or the uncaught exception. -/
def handle_new_event (c : Collab) (description sender : String) :
    List EventPayload × Except AgentError CalendarResponse :=
  match c.extractor description with
  | .error e => ([], .error e)
  | .ok details =>
    match fromisoformat details.date with
    | none => ([], .error (.dateParseError details.date))
    | some p =>
      let dt_obj := pyAstimezone nyOffset c.sysOff p
      let endtime :=
        match details.duration_minutes with
        | none => addSeconds dt_obj (60 * 60)
        | some d => addSeconds dt_obj (d * 60)
      let payload : EventPayload :=
        ⟨details.name, details.location.getD (""), details.description,
          dt_obj, endtime, [⟨sender⟩]⟩
      ([payload],
        match c.insertEvent payload with
        | .error e => .error e
        | .ok _ =>
          .ok ⟨true,
            "Created new event \x27" ++ details.name ++ "\x27 for " ++
              details.date ++ " with " ++ sender,
            some ("calendar://new?event=" ++ details.name)⟩)

/-- Model of `process_calendar_request`: route, gate on confidence 0.7,
dispatch on request type.  `.ok none` is the intentional skip (`return
None`); `.error` is an uncaught exception. -/
def process_calendar_request (c : Collab) (user_input sender : String) :
    List EventPayload × Except AgentError (Option CalendarResponse) :=
  match c.router user_input with
  | .error e => ([], .error e)
  | .ok route_result =>
    if route_result.confidence_score < mkRat 7 10 then ([], .ok none)
    else if route_result.request_type = RequestType.new_event then
      match handle_new_event c route_result.description sender with
      | (calls, r) => (calls, r.map some)
    else ([], .ok none)

/-! ## Gmail message model and normalization -/

structure MsgHeader where
  name : String
  value : String
deriving DecidableEq

/-- A `body` object; `data` carries the (decoded) text when present. -/
structure MsgBody where
  data : Option String
deriving DecidableEq

structure MsgPart where
  mimeType : String
  body : MsgBody
deriving DecidableEq

/-- The `payload` of a Gmail message: `parts` is present exactly for
multipart messages, `body` may be absent, `headers` is always present. -/
structure MsgPayload where
  parts : Option (List MsgPart)
  body : Option MsgBody
  headers : List MsgHeader
deriving DecidableEq

structure RawMessage where
  payload : MsgPayload
deriving DecidableEq

/-- The `for part in parts` loop of `get_message_body`: return the text
of the first `text/plain` part that has a `data` payload; a matching part
without `data` is passed over and the loop continues. -/
def find_plain_text : List MsgPart → Option String
  | [] => none
  | part :: rest =>
    if part.mimeType == "text/plain" then
      match part.body.data with
      | some d => some d
      | none => find_plain_text rest
    else find_plain_text rest

/-- Model of `get_message_body`.  When `parts` exists the single-part
branch is never consulted (the Python `elif`), and a fruitless loop falls
through to `return ""`. -/
def get_message_body (message : RawMessage) : String :=
  match message.payload.parts with
  | some parts => (find_plain_text parts).getD ("")
  | none =>
    match message.payload.body with
    | some b => b.data.getD ("")
    | none => ""

/-- The header scan of `get_sender`: first case-sensitive `From` header
wins; the placeholder is returned when none exists. -/
def get_sender_loop : List MsgHeader → String
  | [] => "(Unknown sender)"
  | h :: rest => if h.name == "From" then h.value else get_sender_loop rest

/-- Model of `get_sender`. -/
def get_sender (message : RawMessage) : String :=
  get_sender_loop message.payload.headers

/-- Model of the `for message in messages` loop of `process_new_messages`.
The Python loop discards each `process_calendar_request` return value; the
embedding records, in order, the insert calls made, the per-message
results of the messages that completed, and the uncaught exception (if
any) that terminated the loop — the source wraps the loop body in no
try/except, so an exception propagates and ends the batch. -/
def process_new_messages (c : Collab) :
    List RawMessage →
      List EventPayload × List (Option CalendarResponse) × Option AgentError
  | [] => ([], [], none)
  | message :: rest =>
    match process_calendar_request c (get_message_body message) (get_sender message) with
    | (calls, .error e) => (calls, [], some e)
    | (calls, .ok o) =>
      match process_new_messages c rest with
      | (calls2, outs, err) => (calls ++ calls2, o :: outs, err)

/-! ## Concrete collaborator instantiations used by witnesses and
counterexamples -/

/-- A router that always classifies as a new-event request with
confidence 0.9. -/
def okRouter : String → Except AgentError CalendarRequestType :=
  fun s => .ok ⟨RequestType.new_event, mkRat 9 10, s⟩

/-- A calendar insert that always succeeds. -/
def okInsert : EventPayload → Except AgentError Unit := fun _ => .ok ()

/-- Wall-clock seconds (since 0000-03-01) of 2025-06-01T09:00:00. -/
def wJune9 : Int := ((daysFromCivil 2025 6 1 * 86400 + 32400 : Nat) : Int)

/-! ## Claim theorems -/

/-- Claim C1: the confidence gate.  For every routing decision the router
returns, a confidence score below 0.7 yields the skip result (`None`, no
insert call) regardless of request type; a score of at least 0.7 with
request type `other` also yields the skip result; and a score of at least
0.7 with request type `new_event` hands control to `handle_new_event`
(the extraction stage), whose calls and result become the pipeline's. -/
theorem c1_confidence_gate (c : Collab) (user_input sender : String)
    (rt : CalendarRequestType) (hroute : c.router user_input = .ok rt) :
    (rt.confidence_score < mkRat 7 10 →
      process_calendar_request c user_input sender = ([], .ok none)) ∧
    (mkRat 7 10 ≤ rt.confidence_score → rt.request_type = RequestType.other →
      process_calendar_request c user_input sender = ([], .ok none)) ∧
    (mkRat 7 10 ≤ rt.confidence_score → rt.request_type = RequestType.new_event →
      process_calendar_request c user_input sender =
        ((handle_new_event c rt.description sender).1,
         (handle_new_event c rt.description sender).2.map some)) := by
  refine ⟨fun hlt => ?_, fun hge hoth => ?_, fun hge hnew => ?_⟩ <;>
    simp only [process_calendar_request, hroute]
  · rw [if_pos hlt]
  · rw [if_neg (not_lt.mpr hge), if_neg (by simp [hoth])]
  · rw [if_neg (not_lt.mpr hge), if_pos hnew]

def wC1 : Collab :=
  ⟨fun s => .ok ⟨RequestType.other, mkRat 9 10, s⟩,
   fun _ => .ok ⟨"E", "2025-06-01", none, none, "d"⟩, okInsert, 0⟩

theorem c1_gate_witness :
    process_calendar_request wC1 ("hello") ("s@x.y") = ([], .ok none) :=
  (c1_confidence_gate wC1 ("hello") ("s@x.y")
    ⟨RequestType.other, mkRat 9 10, "hello"⟩ rfl).2.1 (by decide) rfl

/-! ### Helper lemmas shared by several claims -/

/-- Any insert call recorded by `handle_new_event` is the unique event
payload built from the extracted details. -/
lemma mem_handle_calls (c : Collab) (description sender : String)
    (payload : EventPayload)
    (hmem : payload ∈ (handle_new_event c description sender).1) :
    ∃ details p, c.extractor description = .ok details ∧
      fromisoformat details.date = some p ∧
      payload =
        ⟨details.name, details.location.getD (""), details.description,
          pyAstimezone nyOffset c.sysOff p,
          (match details.duration_minutes with
           | none => addSeconds (pyAstimezone nyOffset c.sysOff p) (60 * 60)
           | some d => addSeconds (pyAstimezone nyOffset c.sysOff p) (d * 60)),
          [⟨sender⟩]⟩ := by
  unfold handle_new_event at hmem
  split at hmem
  · simp at hmem
  · rename_i details heq
    split at hmem
    · simp at hmem
    · rename_i p heq2
      simp only [List.mem_singleton] at hmem
      exact ⟨details, p, heq, heq2, hmem⟩

/-- Any insert call recorded by `process_calendar_request` comes from the
`handle_new_event` stage invoked on the router's cleaned description. -/
lemma mem_process_calls (c : Collab) (user_input sender : String)
    (payload : EventPayload)
    (hmem : payload ∈ (process_calendar_request c user_input sender).1) :
    ∃ rt, c.router user_input = .ok rt ∧
      payload ∈ (handle_new_event c rt.description sender).1 := by
  unfold process_calendar_request at hmem
  split at hmem
  · simp at hmem
  · rename_i rt heq
    split at hmem
    · simp at hmem
    · split at hmem
      · rcases hh : handle_new_event c rt.description sender with ⟨calls, r⟩
        rw [hh] at hmem
        refine ⟨rt, heq, ?_⟩
        rw [hh]
        exact hmem
      · simp at hmem

/-- A successful `handle_new_event` run comes from a successful
extraction and yields exactly the response the source constructs. -/
lemma handle_ok (c : Collab) (description sender : String)
    (calls : List EventPayload) (resp : CalendarResponse)
    (h : handle_new_event c description sender = (calls, .ok resp)) :
    ∃ details, c.extractor description = .ok details ∧
      resp =
        ⟨true,
          "Created new event \x27" ++ details.name ++ "\x27 for " ++
            details.date ++ " with " ++ sender,
          some ("calendar://new?event=" ++ details.name)⟩ := by
  unfold handle_new_event at h
  split at h
  · simp at h
  · rename_i details heq
    split at h
    · simp at h
    · rename_i p heq2
      simp only [Prod.mk.injEq] at h
      split at h
      · split at h
        · simp at h
        · exact ⟨details, heq, (Except.ok.inj h.2).symm⟩
      · split at h
        · simp at h
        · exact ⟨details, heq, (Except.ok.inj h.2).symm⟩

/-! ### Claim C2 -/

/-- Claim C2, counterexample: with `duration_minutes` present but equal
to -30 (present and not positive), the claim requires `end = start + 60
minutes` (3600 s); the code computes `end = start + (-30) minutes`
(-1800 s). -/
def cexC2 : Collab :=
  ⟨okRouter,
   fun _ => .ok ⟨"Chat", "2025-06-01T09:00:00-04:00", some (-30), none, "d"⟩,
   okInsert, 0⟩

theorem c2_counterexample :
    ((handle_new_event cexC2 ("m") ("s")).1.map
      fun p => p.endtime.instant - p.start.instant) = [-1800] ∧
    ((-1800 : Int) ≠ 3600) := by decide

/-- Both duration branches of `handle_new_event`, in arithmetic form:
the recorded payload's end-minus-start is 3600 s when `duration_minutes`
is absent and `d * 60` s when it is `some d`. -/
lemma handle_calls_duration (c : Collab) (description sender : String)
    (payload : EventPayload)
    (hmem : payload ∈ (handle_new_event c description sender).1)
    (details : NewEventDetails)
    (hex : c.extractor description = .ok details) :
    (details.duration_minutes = none →
      payload.endtime.instant - payload.start.instant = 3600) ∧
    (∀ d, details.duration_minutes = some d →
      payload.endtime.instant - payload.start.instant = d * 60) := by
  obtain ⟨details2, p2, hex2, hp2, hpay⟩ :=
    mem_handle_calls c description sender payload hmem
  rw [hex] at hex2
  injection hex2 with hd2
  subst hd2
  constructor
  · intro hnone
    rw [hpay, hnone]
    simp only [addSeconds]
    omega
  · intro d hsome
    rw [hpay, hsome]
    simp only [addSeconds]
    omega

/-- Claim C2 (amended): the resolved event satisfies `end = start +
duration_minutes` whenever `duration_minutes` is present — for any
integer value, positive or not — and `end = start + 60 minutes` exactly
when `duration_minutes` is absent.  (The code never checks positivity.) -/
theorem c2_duration_policy (c : Collab) (description sender : String)
    (details : NewEventDetails) (p : ParsedDT)
    (hex : c.extractor description = .ok details)
    (hp : fromisoformat details.date = some p) :
    ∀ payload ∈ (handle_new_event c description sender).1,
      (details.duration_minutes = none →
        payload.endtime.instant - payload.start.instant = 3600) ∧
      (∀ d, details.duration_minutes = some d →
        payload.endtime.instant - payload.start.instant = d * 60) :=
  fun payload hmem =>
    handle_calls_duration c description sender payload hmem details hex

def wC2 : Collab :=
  ⟨okRouter,
   fun _ => .ok ⟨"Chat", "2025-06-01T09:00:00-04:00", some 45, none, "d"⟩,
   okInsert, 0⟩

def pW2 : EventPayload :=
  ⟨"Chat", "", "d", ⟨wJune9 + 14400, -14400⟩,
    ⟨wJune9 + 14400 + 2700, -14400⟩, [⟨"s"⟩]⟩

theorem c2_duration_witness : pW2.endtime.instant - pW2.start.instant = 45 * 60 :=
  (c2_duration_policy wC2 ("m") ("s")
    ⟨"Chat", "2025-06-01T09:00:00-04:00", some 45, none, "d"⟩
    (ParsedDT.aware wJune9 (-14400)) rfl (by decide) pW2 (by decide)).2 45 rfl

/-! ### Claim C5 -/

/-- Claim C5, counterexample: with `duration_minutes = 0` (a value the
extraction schema does not exclude) the produced event has `end = start`,
violating `end > start`. -/
def cexC5 : Collab :=
  ⟨okRouter,
   fun _ => .ok ⟨"Chat", "2025-06-01T09:00:00-04:00", some 0, none, "d"⟩,
   okInsert, 0⟩

theorem c5_counterexample :
    ¬ (∀ payload ∈ (handle_new_event cexC5 ("m") ("s")).1,
        payload.start.instant < payload.endtime.instant) := by decide

/-- Claim C5 (amended): every event the scheduler produces satisfies
`end > start` provided `duration_minutes` is absent or positive; for zero
or negative durations the code produces `end ≤ start`. -/
theorem c5_end_after_start (c : Collab) (description sender : String)
    (details : NewEventDetails) (p : ParsedDT)
    (hex : c.extractor description = .ok details)
    (hp : fromisoformat details.date = some p) :
    ∀ payload ∈ (handle_new_event c description sender).1,
      (details.duration_minutes = none ∨
        ∃ d, details.duration_minutes = some d ∧ 0 < d) →
      payload.start.instant < payload.endtime.instant := by
  intro payload hmem hdur
  have hboth :=
    handle_calls_duration c description sender payload hmem details hex
  rcases hdur with hnone | ⟨d, hsome, hdpos⟩
  · have hdiff := hboth.1 hnone
    omega
  · have hdiff := hboth.2 d hsome
    omega

theorem c5_invariant_witness : pW2.start.instant < pW2.endtime.instant :=
  c5_end_after_start wC2 ("m") ("s")
    ⟨"Chat", "2025-06-01T09:00:00-04:00", some 45, none, "d"⟩
    (ParsedDT.aware wJune9 (-14400)) rfl (by decide) pW2 (by decide)
    (Or.inr ⟨45, rfl, by norm_num⟩)

/-! ### Claim C3 -/

/-- Claim C3, counterexample: for the parseable, offset-free start
`2025-06-01T09:00:00` and a host timezone of UTC (`sysOff = 0`), the
resolved start's wall clock differs from the input's wall clock — the
code hands a naive datetime to `astimezone`, which interprets it in the
host's local timezone, not as Eastern wall-clock time. -/
theorem c3_counterexample :
    (fromisoformat ("2025-06-01T09:00:00")).map ParsedDT.isNaive = some true ∧
    (fromisoformat ("2025-06-01T09:00:00")).map
        (fun p => (pyAstimezone nyOffset 0 p).wall) ≠
      (fromisoformat ("2025-06-01T09:00:00")).map ParsedDT.wallOf := by
  decide

/-- Claim C3 (amended): a start that parses without an offset is
interpreted as wall-clock time in the process's local timezone (`sysOff`)
and converted into the fixed Eastern timezone: the resolved instant is
`wall - sysOff` and the attached offset is Eastern's at that instant.
Its wall-clock fields are preserved exactly when the local offset agrees
with Eastern's there (e.g. when the process itself runs in Eastern
time).  A start that carries an offset is converted into Eastern
preserving the instant it denotes. -/
theorem c3_timezone_attachment (sysOff w off : Int) :
    (pyAstimezone nyOffset sysOff (ParsedDT.naive w)).instant = w - sysOff ∧
    (pyAstimezone nyOffset sysOff (ParsedDT.naive w)).offset =
      nyOffset (w - sysOff) ∧
    (sysOff = nyOffset (w - sysOff) →
      (pyAstimezone nyOffset sysOff (ParsedDT.naive w)).wall = w) ∧
    (pyAstimezone nyOffset sysOff (ParsedDT.aware w off)).instant = w - off ∧
    (pyAstimezone nyOffset sysOff (ParsedDT.aware w off)).offset =
      nyOffset (w - off) := by
  refine ⟨rfl, rfl, fun h => ?_, rfl, rfl⟩
  simp only [pyAstimezone, AwareDT.wall, instantOfParsed]
  rw [← h]
  omega

theorem c3_wall_witness :
    (pyAstimezone nyOffset (-14400) (ParsedDT.naive wJune9)).wall = wJune9 :=
  (c3_timezone_attachment (-14400) wJune9 0).2.2.1 (by decide)

/-! ### Claim C4 -/

def cexC4 : Collab :=
  ⟨okRouter,
   fun s =>
     if s == "bad" then .ok ⟨"E", "not-a-date", none, none, "d"⟩
     else .ok ⟨"E", "2025-06-01T09:00:00-04:00", none, none, "d"⟩,
   okInsert, 0⟩

def msgBad : RawMessage := ⟨⟨none, some ⟨some ("bad")⟩, [⟨"From", "x@y.z"⟩]⟩⟩

def msgGood : RawMessage := ⟨⟨none, some ⟨some ("good")⟩, [⟨"From", "x@y.z"⟩]⟩⟩

/-- Claim C4, counterexample: a two-message batch whose first message
makes the extractor return the unparsable start `not-a-date`.  The batch
records no completed message and terminates with the date-parse error —
the second message, which on its own processes to completion, is never
processed.  An error in one message does abort the batch. -/
theorem c4_counterexample :
    (process_new_messages cexC4 [msgBad, msgGood]).2.1 = [] ∧
    (process_new_messages cexC4 [msgBad, msgGood]).2.2 =
      some (AgentError.dateParseError ("not-a-date")) ∧
    (process_new_messages cexC4 [msgGood]).2.1.length = 1 ∧
    (process_new_messages cexC4 [msgGood]).2.2 = none := by decide

/-- Claim C4 (amended): the source wraps the batch loop in no exception
handler, so an error raised while processing one message propagates: the
batch stops at that message, no later message is processed, and the
insert calls recorded are exactly those of the failing message. -/
theorem c4_error_aborts_batch (c : Collab) (message : RawMessage)
    (rest : List RawMessage) (calls : List EventPayload) (e : AgentError)
    (h : process_calendar_request c (get_message_body message)
        (get_sender message) = (calls, .error e)) :
    process_new_messages c (message :: rest) = (calls, [], some e) := by
  simp only [process_new_messages, h]

theorem c4_abort_witness :
    process_new_messages cexC4 [msgBad, msgGood] =
      ([], [], some (AgentError.dateParseError ("not-a-date"))) :=
  c4_error_aborts_batch cexC4 msgBad [msgGood] []
    (AgentError.dateParseError ("not-a-date")) (by decide)

/-! ### Claim C6 -/

/-- Claim C6: parse-error atomicity.  When the extracted start date-time
fails to parse, `handle_new_event` raises the hard error for that message
and records no insert call: no partial calendar event is created. -/
theorem c6_parse_atomicity (c : Collab) (description sender : String)
    (details : NewEventDetails)
    (hex : c.extractor description = .ok details)
    (hp : fromisoformat details.date = none) :
    handle_new_event c description sender =
      ([], .error (.dateParseError details.date)) := by
  simp only [handle_new_event, hex, hp]

def wC6 : Collab :=
  ⟨okRouter, fun _ => .ok ⟨"E", "not-a-date", none, none, "d"⟩, okInsert, 0⟩

theorem c6_atomicity_witness :
    handle_new_event wC6 ("m") ("s") =
      ([], .error (.dateParseError ("not-a-date"))) :=
  c6_parse_atomicity wC6 ("m") ("s") ⟨"E", "not-a-date", none, none, "d"⟩
    rfl (by decide)

/-! ### Claim C7 -/

/-- The part-scanning loop equals a `find?` over the conjunction of the
two conditions the loop tests. -/
lemma find_plain_text_eq (ps : List MsgPart) :
    find_plain_text ps =
      (ps.find? fun part =>
        part.mimeType == "text/plain" && part.body.data.isSome).bind
        (fun part => part.body.data) := by
  induction ps with
  | nil => rfl
  | cons part rest ih =>
    cases hm : (part.mimeType == "text/plain")
    · simp [find_plain_text, List.find?_cons, hm, ih]
    · cases hd : part.body.data
      · simp [find_plain_text, List.find?_cons, hm, hd, ih]
      · simp [find_plain_text, List.find?_cons, hm, hd]

/-- Claim C7: body-extraction policy and totality.  `get_message_body` is
a total function of the raw message (the embedding is total by
construction, so no exception escapes for any field combination): for a
multipart message it returns the text of the first `text/plain` part
whose payload is present and empty text when there is none, and for a
single-part message it returns the body text when present and empty text
otherwise. -/
theorem c7_body_policy (message : RawMessage) :
    (∀ parts, message.payload.parts = some parts →
      get_message_body message =
        ((parts.find? fun part =>
            part.mimeType == "text/plain" && part.body.data.isSome).bind
          (fun part => part.body.data)).getD ("")) ∧
    (message.payload.parts = none →
      get_message_body message =
        (message.payload.body.bind MsgBody.data).getD ("")) := by
  constructor
  · intro parts hparts
    simp only [get_message_body, hparts, find_plain_text_eq]
  · intro hparts
    simp only [get_message_body, hparts]
    cases hb : message.payload.body
    · rfl
    · rename_i b
      cases hd : b.data <;> rfl

def partsW7 : List MsgPart :=
  [⟨"text/html", ⟨some ("ignore")⟩⟩, ⟨"text/plain", ⟨none⟩⟩,
   ⟨"text/plain", ⟨some ("hello")⟩⟩]

def msgW7 : RawMessage :=
  ⟨⟨some partsW7, some ⟨some ("unused")⟩, [⟨"From", "a@b.c"⟩]⟩⟩

theorem c7_body_witness :
    get_message_body msgW7 =
      ((partsW7.find? fun part =>
          part.mimeType == "text/plain" && part.body.data.isSome).bind
        (fun part => part.body.data)).getD ("") :=
  (c7_body_policy msgW7).1 partsW7 rfl

/-! ### Claim C8 -/

/-- The header scan returns the value of the first case-sensitive `From`
header, or the placeholder when none exists. -/
lemma get_sender_loop_eq (hs : List MsgHeader) :
    get_sender_loop hs =
      ((hs.find? fun h => h.name == "From").map MsgHeader.value).getD
        ("(Unknown sender)") := by
  induction hs with
  | nil => rfl
  | cons h rest ih =>
    cases hn : (h.name == "From") <;>
      simp [get_sender_loop, List.find?_cons, hn, ih]

/-- Claim C8: attendee singleton.  Every insert call the pipeline makes
for a message carries exactly one attendee, whose address is the sender
extracted during normalization — the value of the first case-sensitive
`From` header, or the placeholder `(Unknown sender)` when absent — and
this is independent of the message body. -/
theorem c8_attendee_singleton (c : Collab) (message : RawMessage)
    (payload : EventPayload)
    (hmem : payload ∈
      (process_calendar_request c (get_message_body message)
        (get_sender message)).1) :
    payload.attendees = [⟨get_sender message⟩] ∧
    get_sender message =
      ((message.payload.headers.find? fun h => h.name == "From").map
        MsgHeader.value).getD ("(Unknown sender)") := by
  constructor
  · obtain ⟨rt, hr, hmem2⟩ := mem_process_calls c _ _ payload hmem
    obtain ⟨details, p, hex, hp, hpay⟩ := mem_handle_calls c _ _ payload hmem2
    rw [hpay]
  · exact get_sender_loop_eq message.payload.headers

def wSync : Collab :=
  ⟨okRouter,
   fun _ => .ok ⟨"Sync", "2025-06-01T09:00:00-04:00", some 30, some ("Cafe"), "d"⟩,
   okInsert, 0⟩

def msgW8 : RawMessage :=
  ⟨⟨none, some ⟨some ("good")⟩,
    [⟨"Subject", "hi"⟩, ⟨"From", "alice@example.com"⟩]⟩⟩

def pW8 : EventPayload :=
  ⟨"Sync", "Cafe", "d", ⟨wJune9 + 14400, -14400⟩,
    ⟨wJune9 + 14400 + 1800, -14400⟩, [⟨"alice@example.com"⟩]⟩

theorem c8_attendee_witness :
    pW8.attendees = [⟨get_sender msgW8⟩] ∧
    get_sender msgW8 =
      ((msgW8.payload.headers.find? fun h => h.name == "From").map
        MsgHeader.value).getD ("(Unknown sender)") :=
  c8_attendee_singleton wSync msgW8 pW8 (by decide)

/-! ### Claim C9 -/

/-- Claim C9: resolution is a pure function (it is quantified over two
arbitrary host offsets, so it depends on no prior call), and re-resolving
the aware datetime produced by a resolution returns it unchanged — in
particular the instant is preserved. -/
theorem c9_resolution_idempotent (sysOff sysOff2 : Int) (p : ParsedDT) :
    pyAstimezone nyOffset sysOff2
        (ParsedDT.aware (pyAstimezone nyOffset sysOff p).wall
          (pyAstimezone nyOffset sysOff p).offset) =
      pyAstimezone nyOffset sysOff p := by
  simp [pyAstimezone, instantOfParsed, AwareDT.wall, AwareDT.mk.injEq,
    add_sub_cancel_right]

/-! ### Claim C10 -/

/-- A non-skip, non-error pipeline result comes from a successful
`handle_new_event` run on the router's cleaned description. -/
lemma process_ok_some (c : Collab) (user_input sender : String)
    (calls : List EventPayload) (resp : CalendarResponse)
    (h : process_calendar_request c user_input sender =
      (calls, .ok (some resp))) :
    ∃ rt, c.router user_input = .ok rt ∧
      handle_new_event c rt.description sender = (calls, .ok resp) := by
  unfold process_calendar_request at h
  split at h
  · simp at h
  · rename_i rt heq
    split at h
    · simp at h
    · split at h
      · rcases hh : handle_new_event c rt.description sender with ⟨calls2, r⟩
        rw [hh] at h
        cases r with
        | error e =>
          rw [Prod.mk.injEq] at h
          simp [Except.map] at h
        | ok v =>
          rw [Prod.mk.injEq] at h
          simp only [Except.map] at h
          have hv : v = resp := by
            have h2 := h.2
            injection h2 with h3
            injection h3
          refine ⟨rt, heq, ?_⟩
          rw [hh, h.1, hv]
      · simp at h

/-- Claim C10: every non-`None` `CalendarResponse` the pipeline returns
has `success = true` and a `calendar_link` equal to
`calendar://new?event=` followed by the extracted event name; no code
path constructs a response with `success = false`. -/
theorem c10_outcome_shape (c : Collab) (user_input sender : String)
    (calls : List EventPayload) (resp : CalendarResponse)
    (h : process_calendar_request c user_input sender =
      (calls, .ok (some resp))) :
    resp.success = true ∧
    ∃ rt details, c.router user_input = .ok rt ∧
      c.extractor rt.description = .ok details ∧
      resp.calendar_link = some ("calendar://new?event=" ++ details.name) := by
  obtain ⟨rt, hr, hh⟩ := process_ok_some c user_input sender calls resp h
  obtain ⟨details, hex, hresp⟩ := handle_ok c rt.description sender calls resp hh
  exact ⟨by rw [hresp], rt, details, hr, hex, by rw [hresp]⟩

def rWSync : CalendarResponse :=
  ⟨true, "Created new event \x27Sync\x27 for 2025-06-01T09:00:00-04:00 with s",
    some ("calendar://new?event=Sync")⟩

def pWSyncS : EventPayload :=
  ⟨"Sync", "Cafe", "d", ⟨wJune9 + 14400, -14400⟩,
    ⟨wJune9 + 14400 + 1800, -14400⟩, [⟨"s"⟩]⟩

theorem c10_outcome_witness :
    rWSync.success = true ∧
    ∃ rt details, wSync.router ("m") = .ok rt ∧
      wSync.extractor rt.description = .ok details ∧
      rWSync.calendar_link = some ("calendar://new?event=" ++ details.name) :=
  c10_outcome_shape wSync ("m") ("s") [pWSyncS] rWSync (by decide)

end CalendarAgent
